import Mathlib

/-!
Verification of the WebSocket connection manager of this repository
(`WebSocketHandler` in `src/tools/docker/handler.ts`, dispatched through
`src/tools/websocket/index.ts` and `src/resources/index.ts`).

The TypeScript handler keeps a `Map` from connection id to a mutable
connection record `{id, url, socket, messages, connected, createdAt}`.
We embed it as a pure state machine: the registry is an association list,
transport callbacks (`onopen`, `onmessage`, `onclose`, `onerror`) and the
API methods (`connect`, `send`, `listen`, `close`, `cleanup`) are functions
from state to state.  Timestamps are abstract `Nat`s; wall-clock time in
`listen` is modelled discretely, one poll tick per 100 ms, exactly the
polling interval the source hard-codes in `setTimeout(checkMessages, 100)`.
External fallible transport calls (`socket.send`, `socket.close`) are given
a boolean oracle saying whether the underlying call throws.
-/

namespace WS

/-- One entry of a connection's inbound message log, as pushed by the
source's `socket.onmessage` / `socket.onclose` callbacks:
`{timestamp, type, data}` with `type` one of `"text"`, `"binary"`, `"close"`. -/
structure Message where
  timestamp : Nat
  type : String
  data : String
deriving Repr, DecidableEq

/-- The source's `WebSocketConnection` record (minus the raw socket handle,
whose only observable field we keep is nothing here; the socket's behavior
enters through event traces and oracles). -/
structure WSConnection where
  id : String
  url : String
  messages : List Message
  connected : Bool
  createdAt : Nat
deriving Repr, DecidableEq

/-- The handler's private state: `connections` is the `Map<string,
WebSocketConnection>` (an association list here) and `nextId` the
monotonically incremented id counter. -/
structure HandlerState where
  connections : List (String × WSConnection)
  nextId : Nat
deriving Repr, DecidableEq

/-- Lookup in the connection map (`this.connections.get(key)`). -/
def mapLookup : List (String × WSConnection) → String → Option WSConnection
  | [], _ => none
  | (k, v) :: rest, key => if k = key then some v else mapLookup rest key

/-- Insert-or-replace in the connection map (`this.connections.set(key, v)`). -/
def mapSet : List (String × WSConnection) → String → WSConnection → List (String × WSConnection)
  | [], key, v => [(key, v)]
  | (k, w) :: rest, key, v =>
      if k = key then (k, v) :: rest else (k, w) :: mapSet rest key v

/-- Removal from the connection map (`this.connections.delete(key)`). -/
def mapDelete : List (String × WSConnection) → String → List (String × WSConnection)
  | [], _ => []
  | (k, w) :: rest, key =>
      if k = key then rest else (k, w) :: mapDelete rest key

/-- The log entry `socket.onmessage` pushes:
`{timestamp, type: typeof data === string ? text : binary, data}`. -/
def inboundEntry (ts : Nat) (isText : Bool) (data : String) : Message :=
  ⟨ts, if isText then "text" else "binary", data⟩

/-- The source's `socket.onmessage` callback: push the inbound entry and then,
under the comment `Keep only last 1000 messages`, if the length exceeds 1000
replace the array by `messages.slice(-500)`, i.e. keep only the newest 500
entries. -/
def onmessageHandler (conn : WSConnection) (ts : Nat) (isText : Bool) (data : String) :
    WSConnection :=
  let msgs := conn.messages ++ [inboundEntry ts isText data]
  let msgs := if 1000 < msgs.length then msgs.drop (msgs.length - 500) else msgs
  { conn with messages := msgs }

/-- The source's `socket.onclose` callback: set `connected = false` and push a
`close` entry (note: `onclose` pushes without running the trim check). -/
def oncloseHandler (conn : WSConnection) (ts : Nat) (code : Nat) (reason : String) :
    WSConnection :=
  { conn with
    connected := false
    messages := conn.messages ++
      [⟨ts, "close", "Connection closed: " ++ toString code ++ " " ++ reason⟩] }

/-- Errors the handler surfaces by `throw new Error(...)`. -/
inductive WsError where
  | notFound (id : String)
  | notConnected (id : String)
  | sendFailed
  | closeFailed
  | connectTimeout
  | connectError
deriving Repr, DecidableEq

/-- State of one `connect` call's pending promise race: `settled` records the
first settlement (`resolve`/`reject`) if any — later settlements of a JS
promise are no-ops; `timeoutCleared` records `clearTimeout`; `socketClosed`
records whether anything ever called `socket.close()` on this socket (the
source's connect path never does). -/
structure ConnectRace where
  conn : WSConnection
  settled : Option (Except WsError String)
  timeoutCleared : Bool
  socketClosed : Bool
deriving Repr

/-- Events that can settle a pending `connect`: the `setTimeout` timer firing,
the socket's `open` event, or the socket's `error` event. -/
inductive RaceEvent where
  | timerFires
  | sockOpen
  | sockError
deriving Repr, DecidableEq

/-- Settle a promise: the first `resolve`/`reject` wins, later ones are no-ops. -/
def settle (s : Option (Except WsError String)) (r : Except WsError String) :
    Option (Except WsError String) :=
  match s with
  | some r0 => some r0
  | none => some r

/-- The synchronous prefix of `WebSocketHandler.connect`: allocate
`connectionId = ws_${this.nextId++}`, build the connection record with
`connected: false` and an empty log, arm the timer, and create the socket.
Nothing is stored in the registry yet. -/
def connectStart (st : HandlerState) (url : String) (now : Nat) :
    HandlerState × ConnectRace :=
  let connectionId := "ws_" ++ toString st.nextId
  ({ st with nextId := st.nextId + 1 },
   { conn := { id := connectionId, url := url, messages := [], connected := false,
               createdAt := now }
     settled := none
     timeoutCleared := false
     socketClosed := false })

/-- One event of the connect race, exactly as the source's callbacks behave:
the timer rejects with the timeout error (if not already cleared);
`socket.onopen` clears the timer, sets `connected = true`, stores the
connection in the registry (unconditionally — it does not check whether the
promise was already rejected) and resolves; `socket.onerror` clears the timer
and rejects.  No branch ever calls `socket.close()`. -/
def raceStep (st : HandlerState) (r : ConnectRace) :
    RaceEvent → HandlerState × ConnectRace
  | .timerFires =>
      if r.timeoutCleared then (st, r)
      else (st, { r with settled := settle r.settled (.error .connectTimeout) })
  | .sockOpen =>
      let conn := { r.conn with connected := true }
      ({ st with connections := mapSet st.connections conn.id conn },
       { r with conn := conn, timeoutCleared := true,
                settled := settle r.settled (.ok conn.id) })
  | .sockError =>
      (st, { r with timeoutCleared := true,
                    settled := settle r.settled (.error .connectError) })

/-- Run a sequence of race events from a pending connect. -/
def raceRun (st : HandlerState) (r : ConnectRace) : List RaceEvent → HandlerState × ConnectRace
  | [] => (st, r)
  | e :: es => let (st1, r1) := raceStep st r e; raceRun st1 r1 es

/-- Result record of a successful `send` (`{success, message, timestamp}`). -/
structure SendResult where
  success : Bool
  message : String
  timestamp : Nat
deriving Repr, DecidableEq

/-- `WebSocketHandler.send`: look the id up (`NotFound` if absent), require
`connected` (`NotConnected` otherwise), then call `socket.send` — modelled by
the `sockSendThrows` oracle — and return the ack.  The handler state is
returned alongside: no branch of the source touches the map or any log. -/
def send (st : HandlerState) (connectionId payload : String) (isBinary : Bool)
    (sockSendThrows : Bool) (now : Nat) : Except WsError SendResult × HandlerState :=
  match mapLookup st.connections connectionId with
  | none => (.error (.notFound connectionId), st)
  | some conn =>
      if conn.connected = false then (.error (.notConnected connectionId), st)
      else if sockSendThrows then (.error .sendFailed, st)
      else (.ok { success := true, message := "Message sent successfully", timestamp := now }, st)

/-- `WebSocketHandler.close`: look the id up (`NotFound` if absent), then call
`connection.socket.close(code, reason)` and delete the id from the map.  When
the transport close throws (`sockCloseThrows`), the exception propagates
before the `delete` line runs, so the map is left unchanged. -/
def close (st : HandlerState) (connectionId : String) (sockCloseThrows : Bool) :
    Except WsError Unit × HandlerState :=
  match mapLookup st.connections connectionId with
  | none => (.error (.notFound connectionId), st)
  | some _ =>
      if sockCloseThrows then (.error .closeFailed, st)
      else (.ok (), { st with connections := mapDelete st.connections connectionId })

/-- The source's `checkMessages` poll loop inside `WebSocketHandler.listen`.
`trace k` is the captured connection object's `messages` array as observed at
the k-th poll (the callbacks append to that array concurrently; the loop
re-reads it each poll and never consults the registry).  Time is discrete:
poll k happens at `elapsed = 100 * k` ms, the source's `setTimeout(checkMessages,
100)` interval.  The loop resolves with `(messages.slice(initialCount),
elapsed)` as soon as `elapsed >= duration` or at least `maxMessages` new
entries are visible, and otherwise re-arms itself. -/
def checkMessages (trace : Nat → List Message) (initialCount duration maxMessages k : Nat) :
    List Message × Nat :=
  let elapsed := 100 * k
  let newMessages := (trace k).drop initialCount
  if duration ≤ elapsed ∨ maxMessages ≤ newMessages.length then (newMessages, elapsed)
  else checkMessages trace initialCount duration maxMessages (k + 1)
termination_by duration - 100 * k
decreasing_by omega

/-- Effective duration in ms: the source computes `(args.duration || 30) * 1000`,
so an absent or zero argument means 30 seconds. -/
def effDuration (duration : Option Nat) : Nat :=
  (match duration with
   | none => 30
   | some 0 => 30
   | some d => d) * 1000

/-- Effective message bound: the source computes `args.maxMessages || 100`. -/
def effMaxMessages (maxMessages : Option Nat) : Nat :=
  match maxMessages with
  | none => 100
  | some 0 => 100
  | some m => m

/-- `WebSocketHandler.listen`: a single registry lookup (`NotFound` if the id
is absent), capture `initialCount = connection.messages.length`, then run the
poll loop.  The loop reads only the captured connection's log trace, so the
registry is returned untouched and later registry changes cannot affect the
call. -/
def listen (st : HandlerState) (connectionId : String)
    (duration maxMessages : Option Nat) (trace : Nat → List Message) :
    Except WsError (List Message × Nat) × HandlerState :=
  match mapLookup st.connections connectionId with
  | none => (.error (.notFound connectionId), st)
  | some conn =>
      (.ok (checkMessages trace conn.messages.length
              (effDuration duration) (effMaxMessages maxMessages) 0), st)

/-- Stop condition of the poll loop at tick `k`. -/
def stopCond (trace : Nat → List Message) (initialCount duration maxMessages k : Nat) : Prop :=
  duration ≤ 100 * k ∨ maxMessages ≤ ((trace k).drop initialCount).length

instance (trace : Nat → List Message) (initialCount duration maxMessages k : Nat) :
    Decidable (stopCond trace initialCount duration maxMessages k) := by
  unfold stopCond; exact inferInstance

/-- The stop condition always eventually holds: at tick `duration` the elapsed
time `100 * duration` has reached the budget. -/
theorem stopCond_exists (trace : Nat → List Message) (initialCount duration maxMessages : Nat) :
    ∃ k, stopCond trace initialCount duration maxMessages k :=
  ⟨duration, Or.inl (by omega)⟩

/-- First poll tick at which the loop's stop condition holds. -/
def stopTick (trace : Nat → List Message) (initialCount duration maxMessages : Nat) : Nat :=
  Nat.find (stopCond_exists trace initialCount duration maxMessages)

/-- The dispatcher in `src/tools/websocket/index.ts` (`executeWebSocketTool`)
constructs `new WebSocketHandler()` on every invocation; this is the state
such a freshly constructed handler starts from. -/
def freshHandler : HandlerState := { connections := [], nextId := 1 }

/-- The connection id a `ws_connect` invocation routed through
`executeWebSocketTool` allocates: the dispatcher builds a fresh handler and
calls `connect` on it, so the id comes from `connectStart freshHandler`. -/
def executeWSConnectId (url : String) (now : Nat) : String :=
  (connectStart freshHandler url now).2.conn.id

/-- A connection whose log sits exactly at the cap of 1000 entries. -/
def connAtCap : WSConnection :=
  { id := "ws_1", url := "wss://echo.example/socket",
    messages := List.replicate 1000 ⟨0, "text", "a"⟩, connected := true, createdAt := 0 }

/-- An open, registered connection with an empty log. -/
def connWs1 : WSConnection :=
  { id := "ws_1", url := "wss://echo.example/socket", messages := [],
    connected := true, createdAt := 0 }

/-- A connection that is registered but not connected
(`connected = false`, as the source leaves it before `onopen` / after `onclose`). -/
def connNotConn : WSConnection :=
  { id := "ws_1", url := "wss://echo.example/socket", messages := [],
    connected := false, createdAt := 0 }

/-- A handler state holding the single open connection `ws_1`. -/
def stWithWs1 : HandlerState := { connections := [("ws_1", connWs1)], nextId := 2 }

/-- A handler state holding the single not-connected connection `ws_1`. -/
def stNotConn : HandlerState := { connections := [("ws_1", connNotConn)], nextId := 2 }

/-- Registry and race after a connect whose timer fired first and whose socket
opened afterwards: events `timerFires` then `sockOpen`. -/
def stAfterLateOpen : HandlerState × ConnectRace :=
  let p := connectStart freshHandler "wss://echo.example/socket" 0
  raceRun p.1 p.2 [.timerFires, .sockOpen]

/-- Registry and race after a connect that opened normally. -/
def raceOpened : HandlerState × ConnectRace :=
  let p := connectStart freshHandler "wss://echo.example/socket" 0
  raceRun p.1 p.2 [.sockOpen]

/-- Five inbound messages, all arriving within a single polling interval. -/
def fiveMessages : List Message :=
  [⟨1, "text", "a"⟩, ⟨2, "text", "b"⟩, ⟨3, "text", "c"⟩,
   ⟨4, "text", "d"⟩, ⟨5, "text", "e"⟩]

/-- A log trace where five messages arrive between poll 0 and poll 1. -/
def burstTrace : Nat → List Message :=
  fun k => if k = 0 then [] else fiveMessages

/-- Unfolding lemma: when the stop condition holds at tick `k`, the poll loop
resolves there with the delta slice and the elapsed time. -/
theorem checkMessages_stop (trace : Nat → List Message)
    (initialCount duration maxMessages k : Nat)
    (h : stopCond trace initialCount duration maxMessages k) :
    checkMessages trace initialCount duration maxMessages k =
      ((trace k).drop initialCount, 100 * k) := by
  unfold stopCond at h
  unfold checkMessages
  exact if_pos h

/-- Unfolding lemma: when the stop condition fails at tick `k`, the poll loop
re-arms itself for tick `k + 1`. -/
theorem checkMessages_go (trace : Nat → List Message)
    (initialCount duration maxMessages k : Nat)
    (h : ¬ stopCond trace initialCount duration maxMessages k) :
    checkMessages trace initialCount duration maxMessages k =
      checkMessages trace initialCount duration maxMessages (k + 1) := by
  unfold stopCond at h
  conv_lhs => unfold checkMessages
  exact if_neg h

/-- Keys absent from the association list look up to `none`. -/
theorem mapLookup_eq_none_of_not_mem (m : List (String × WSConnection)) (key : String)
    (h : key ∉ m.map Prod.fst) : mapLookup m key = none := by
  induction m with
  | nil => rfl
  | cons kv rest ih =>
      simp only [List.map_cons, List.mem_cons] at h
      push_neg at h
      simp only [mapLookup]
      rw [if_neg (fun hk => h.1 hk.symm)]
      exact ih h.2

/-- With no duplicate keys (the JS `Map` invariant), deleting a key makes its
lookup come back `none`. -/
theorem mapLookup_mapDelete_self (m : List (String × WSConnection)) (key : String)
    (hnd : (m.map Prod.fst).Nodup) : mapLookup (mapDelete m key) key = none := by
  induction m with
  | nil => rfl
  | cons kv rest ih =>
      simp only [List.map_cons, List.nodup_cons] at hnd
      simp only [mapDelete]
      by_cases hk : kv.1 = key
      · rw [if_pos hk]
        exact mapLookup_eq_none_of_not_mem rest key (hk ▸ hnd.1)
      · rw [if_neg hk]
        simp only [mapLookup]
        rw [if_neg hk]
        exact ih hnd.2

/-- The effective message bound is always positive (`args.maxMessages || 100`
maps both an absent and a zero argument to 100). -/
theorem effMaxMessages_pos : ∀ maxMessages, 1 ≤ effMaxMessages maxMessages
  | none => by decide
  | some 0 => by decide
  | some (m + 1) => by
      show 1 ≤ m + 1
      omega

/-- The poll loop started at a tick not preceded by any stopping tick resolves
at `stopTick`, with the delta slice read at that very tick. -/
theorem checkMessages_from (trace : Nat → List Message)
    (initialCount duration maxMessages : Nat) :
    ∀ n k, duration - 100 * k ≤ n →
    (∀ j, j < k → ¬ stopCond trace initialCount duration maxMessages j) →
    checkMessages trace initialCount duration maxMessages k =
      ((trace (stopTick trace initialCount duration maxMessages)).drop initialCount,
       100 * stopTick trace initialCount duration maxMessages) := by
  intro n
  induction n with
  | zero =>
      intro k hk hmin
      have hstop : stopCond trace initialCount duration maxMessages k := Or.inl (by omega)
      have hfind : stopTick trace initialCount duration maxMessages = k := by
        unfold stopTick
        exact (Nat.find_eq_iff _).2 ⟨hstop, fun j hj => hmin j hj⟩
      rw [checkMessages_stop trace initialCount duration maxMessages k hstop, hfind]
  | succ n ih =>
      intro k hk hmin
      by_cases hstop : stopCond trace initialCount duration maxMessages k
      · have hfind : stopTick trace initialCount duration maxMessages = k := by
          unfold stopTick
          exact (Nat.find_eq_iff _).2 ⟨hstop, fun j hj => hmin j hj⟩
        rw [checkMessages_stop trace initialCount duration maxMessages k hstop, hfind]
      · rw [checkMessages_go trace initialCount duration maxMessages k hstop]
        have hlt : 100 * k < duration := by
          unfold stopCond at hstop
          push_neg at hstop
          omega
        apply ih
        · omega
        · intro j hj
          rcases Nat.lt_succ_iff_lt_or_eq.mp hj with h | h
          · exact hmin j h
          · exact h ▸ hstop

/-- The poll loop from tick 0 resolves at the first stopping tick. -/
theorem checkMessages_eq_at_stopTick (trace : Nat → List Message)
    (initialCount duration maxMessages : Nat) :
    checkMessages trace initialCount duration maxMessages 0 =
      ((trace (stopTick trace initialCount duration maxMessages)).drop initialCount,
       100 * stopTick trace initialCount duration maxMessages) := by
  apply checkMessages_from trace initialCount duration maxMessages duration 0
  · omega
  · intro j hj
    omega

/-- On a trace that never grows past the captured initial count, the loop
spins until the time budget is exhausted and resolves empty, within one
polling interval past the budget. -/
theorem checkMessages_const_empty (msgs0 : List Message) (initialCount duration maxMessages : Nat)
    (hL : msgs0.length ≤ initialCount) (hmax : 1 ≤ maxMessages) :
    ∀ n k, duration - 100 * k ≤ n → 100 * k < duration + 100 →
    ∃ e, checkMessages (fun _ => msgs0) initialCount duration maxMessages k = ([], e) ∧
      duration ≤ e ∧ e < duration + 100 := by
  have hdrop : ∀ k : Nat, ((fun _ => msgs0) k : List Message).drop initialCount = [] :=
    fun _ => List.drop_eq_nil_of_le hL
  intro n
  induction n with
  | zero =>
      intro k hk hlt
      have hstop : stopCond (fun _ => msgs0) initialCount duration maxMessages k :=
        Or.inl (by omega)
      refine ⟨100 * k, ?_, by omega, hlt⟩
      rw [checkMessages_stop _ _ _ _ _ hstop, hdrop k]
  | succ n ih =>
      intro k hk hlt
      by_cases htime : duration ≤ 100 * k
      · have hstop : stopCond (fun _ => msgs0) initialCount duration maxMessages k :=
          Or.inl htime
        refine ⟨100 * k, ?_, htime, hlt⟩
        rw [checkMessages_stop _ _ _ _ _ hstop, hdrop k]
      · have hstop : ¬ stopCond (fun _ => msgs0) initialCount duration maxMessages k := by
          unfold stopCond
          rw [hdrop k]
          simp only [List.length_nil]
          omega
        rw [checkMessages_go _ _ _ _ _ hstop]
        apply ih
        · omega
        · omega

/-- The fixture connection really sits at the 1000-entry cap. -/
theorem connAtCap_len : connAtCap.messages.length = 1000 := by
  unfold connAtCap
  exact List.length_replicate 1000 _

/-- Shared lemma for the cap policy: appending the 1001st entry keeps only the
newest 500 entries (the drop-501 suffix of the appended list). -/
theorem onmessage_cap (conn : WSConnection) (ts : Nat) (isText : Bool)
    (data : String) (hcap : conn.messages.length = 1000) :
    (onmessageHandler conn ts isText data).messages =
      (conn.messages ++ [inboundEntry ts isText data]).drop 501 ∧
    (onmessageHandler conn ts isText data).messages.length = 500 := by
  have hlen : (conn.messages ++ [inboundEntry ts isText data]).length = 1001 := by
    rw [List.length_append, hcap]
    rfl
  have hmsgs : (onmessageHandler conn ts isText data).messages =
      (conn.messages ++ [inboundEntry ts isText data]).drop 501 := by
    simp only [onmessageHandler]
    rw [hlen]
    norm_num
  refine ⟨hmsgs, ?_⟩
  rw [hmsgs, List.length_drop, hlen]

/-- C1 counterexample: delivering one more message to a connection whose log
holds exactly the cap of 1000 entries leaves a log of 500 entries, not the 501
entries the claim states. -/
theorem log_cap_append_not_501 :
    (onmessageHandler connAtCap 5 true "extra").messages.length = 500 ∧
    (onmessageHandler connAtCap 5 true "extra").messages.length ≠ 501 := by
  have h := (onmessage_cap connAtCap 5 true "extra" connAtCap_len).2
  exact ⟨h, by omega⟩

/-- C1 (amended): for a connection whose log holds the cap of 1000 entries,
delivering one more inbound message appends the new entry first and then keeps
only the newest 500 entries of the 1001 (the drop-501 suffix of the appended
list, so the retained entries are the newest ones in their original order, the
new entry included), yielding a log of exactly 500 entries. -/
theorem log_cap_append_yields_500 (conn : WSConnection) (ts : Nat) (isText : Bool)
    (data : String) (hcap : conn.messages.length = 1000) :
    (onmessageHandler conn ts isText data).messages =
      (conn.messages ++ [inboundEntry ts isText data]).drop 501 ∧
    (onmessageHandler conn ts isText data).messages.length = 500 :=
  onmessage_cap conn ts isText data hcap

/-- C1 witness: the amended theorem applied to an explicit connection at the cap. -/
theorem log_cap_append_yields_500_witness :
    connAtCap.messages.length = 1000 ∧
    (onmessageHandler connAtCap 5 true "extra").messages.length = 500 :=
  ⟨connAtCap_len,
   (log_cap_append_yields_500 connAtCap 5 true "extra" connAtCap_len).2⟩

/-- C2 (code bug): when the connect timer fires before the socket's open signal
and the transport completes the connect afterwards, the call has indeed failed
with the timeout error, but the late `onopen` callback still stores the
connection in the registry, and no code path ever closes the orphaned socket. -/
theorem connect_timeout_then_open_registers_and_leaks :
    stAfterLateOpen.2.settled = some (Except.error WsError.connectTimeout) ∧
    mapLookup stAfterLateOpen.1.connections "ws_1" = some stAfterLateOpen.2.conn ∧
    stAfterLateOpen.2.socketClosed = false :=
  ⟨rfl, rfl, rfl⟩

/-- C3 counterexample: with the transport close request throwing, `close` on the
registered id `ws_1` surfaces the close error, yet `ws_1` is still present in
the registry afterwards — contradicting the claimed unconditional removal. -/
theorem close_error_keeps_id :
    (close stWithWs1 "ws_1" true).1 = Except.error WsError.closeFailed ∧
    mapLookup (close stWithWs1 "ws_1" true).2.connections "ws_1" = some connWs1 :=
  ⟨rfl, rfl⟩

/-- C3 (amended): `close` on a registered id removes the id from the registry
exactly when the transport close request succeeds; when the transport close
throws, the error is surfaced to the caller and the registry is left unchanged,
so the id is still registered. -/
theorem close_registry_removal (st : HandlerState) (id : String) (conn : WSConnection)
    (hreg : mapLookup st.connections id = some conn)
    (hnd : (st.connections.map Prod.fst).Nodup) :
    (close st id false).1 = Except.ok () ∧
    mapLookup (close st id false).2.connections id = none ∧
    (close st id true).1 = Except.error WsError.closeFailed ∧
    (close st id true).2 = st := by
  unfold close
  rw [hreg]
  exact ⟨rfl, mapLookup_mapDelete_self st.connections id hnd, rfl, rfl⟩

/-- C3 witness: the amended theorem applied to a concrete one-connection state. -/
theorem close_registry_removal_witness :
    (close stWithWs1 "ws_1" false).1 = Except.ok () ∧
    mapLookup (close stWithWs1 "ws_1" false).2.connections "ws_1" = none ∧
    (close stWithWs1 "ws_1" true).1 = Except.error WsError.closeFailed ∧
    (close stWithWs1 "ws_1" true).2 = stWithWs1 :=
  close_registry_removal stWithWs1 "ws_1" connWs1 rfl (by simp [stWithWs1])

/-- C4: `send` on an id absent from the registry fails with the not-found
error, while `send` on a registered id whose connection is not open
(`connected = false`, covering a connection that never reached the open state
as well as one past a transport close) fails with the not-connected error, not
with not-found. -/
theorem send_notfound_notconnected (st : HandlerState) (id payload : String)
    (isBinary sockThrows : Bool) (now : Nat) :
    (mapLookup st.connections id = none →
      (send st id payload isBinary sockThrows now).1 = Except.error (WsError.notFound id)) ∧
    (∀ conn, mapLookup st.connections id = some conn → conn.connected = false →
      (send st id payload isBinary sockThrows now).1 =
        Except.error (WsError.notConnected id)) := by
  constructor
  · intro h
    unfold send
    rw [h]
  · intro conn h hc
    unfold send
    rw [h]
    simp [hc]

/-- C4 witness: the theorem applied to a state without `ws_9` and to a state
holding a registered, not-connected `ws_1`. -/
theorem send_notfound_notconnected_witness :
    (send freshHandler "ws_9" "hello" false false 0).1 =
      Except.error (WsError.notFound "ws_9") ∧
    (send stNotConn "ws_1" "hello" false false 0).1 =
      Except.error (WsError.notConnected "ws_1") :=
  ⟨(send_notfound_notconnected freshHandler "ws_9" "hello" false false 0).1 rfl,
   (send_notfound_notconnected stNotConn "ws_1" "hello" false false 0).2 connNotConn rfl rfl⟩

/-- C5 (code bug): the dispatcher `executeWebSocketTool` constructs a fresh
`WebSocketHandler` on every invocation, so every successful ws_connect
allocates from a counter freshly initialised to 1: any two invocations of the
operation surface return the very same id `ws_1` instead of pairwise distinct,
never-reused ids. -/
theorem execute_ws_connect_reuses_id (url1 url2 : String) (t1 t2 : Nat) :
    executeWSConnectId url1 t1 = "ws_1" ∧
    executeWSConnectId url1 t1 = executeWSConnectId url2 t2 :=
  ⟨rfl, rfl⟩

/-- C6 counterexample: delivering a transport error event to a freshly opened,
registered connection with an empty log leaves the log empty — no entry of
kind `error` (or any other kind) is appended — while registry and state are
untouched, refuting the claimed error log entry. -/
theorem error_event_appends_nothing :
    (raceStep raceOpened.1 raceOpened.2 RaceEvent.sockError).2.conn.messages = [] ∧
    (raceStep raceOpened.1 raceOpened.2 RaceEvent.sockError).1 = raceOpened.1 ∧
    (raceStep raceOpened.1 raceOpened.2 RaceEvent.sockError).2.conn.connected = true :=
  ⟨rfl, rfl, rfl⟩

/-- C6 (amended): a transport error event appends nothing to the connection's
log and does not change the connection's state or the registry — the source's
`onerror` only clears the connect timer and rejects the then-pending connect
promise; only a transport close event flips the state to closed (appending a
`close` log entry), and only an explicit close call removes the id. -/
theorem error_event_no_log_no_state_change (st : HandlerState) (r : ConnectRace)
    (conn : WSConnection) (ts code : Nat) (reason : String) :
    (raceStep st r RaceEvent.sockError).1 = st ∧
    (raceStep st r RaceEvent.sockError).2.conn = r.conn ∧
    (oncloseHandler conn ts code reason).connected = false ∧
    (oncloseHandler conn ts code reason).messages =
      conn.messages ++
        [(⟨ts, "close", "Connection closed: " ++ toString code ++ " " ++ reason⟩ : Message)] :=
  ⟨rfl, rfl, rfl, rfl⟩

/-- C7: `listen` fails with the not-found error exactly at the initial lookup
and nowhere else: on a registered id the poll loop always resolves with an ok
result, and on a trace with no inbound traffic it resolves with an empty
message list at an elapsed time at least the budget and less than one 100 ms
polling interval beyond it.  The loop's inputs are only the captured
connection's log trace, not the registry, so closing or removing the
connection mid-wait cannot make the call fail. -/
theorem listen_never_throws_after_lookup (st : HandlerState) (id : String)
    (duration maxMessages : Option Nat) (trace : Nat → List Message) :
    (mapLookup st.connections id = none →
      (listen st id duration maxMessages trace).1 = Except.error (WsError.notFound id)) ∧
    (∀ conn, mapLookup st.connections id = some conn →
      (listen st id duration maxMessages trace).1 =
        Except.ok (checkMessages trace conn.messages.length
          (effDuration duration) (effMaxMessages maxMessages) 0)) ∧
    (∀ conn, mapLookup st.connections id = some conn →
      trace = (fun _ => conn.messages) →
      ∃ e, (listen st id duration maxMessages trace).1 = Except.ok ([], e) ∧
        effDuration duration ≤ e ∧ e < effDuration duration + 100) := by
  refine ⟨?_, ?_, ?_⟩
  · intro h
    unfold listen
    rw [h]
  · intro conn h
    unfold listen
    rw [h]
  · intro conn h htr
    subst htr
    obtain ⟨e, he, h1, h2⟩ :=
      checkMessages_const_empty conn.messages conn.messages.length
        (effDuration duration) (effMaxMessages maxMessages) (le_refl _)
        (effMaxMessages_pos maxMessages) (effDuration duration) 0 (by omega) (by omega)
    refine ⟨e, ?_, h1, h2⟩
    unfold listen
    rw [h]
    dsimp only
    rw [he]

/-- C7 witness: an unknown id fails the initial lookup; a registered id with a
silent trace resolves ok and empty within one interval past the budget. -/
theorem listen_never_throws_after_lookup_witness :
    (listen freshHandler "ws_9" (some 1) (some 2) (fun _ => [])).1 =
      Except.error (WsError.notFound "ws_9") ∧
    (∃ e, (listen stWithWs1 "ws_1" (some 1) (some 2) (fun _ => ([] : List Message))).1 =
        Except.ok ([], e) ∧
      effDuration (some 1) ≤ e ∧ e < effDuration (some 1) + 100) :=
  ⟨(listen_never_throws_after_lookup freshHandler "ws_9" (some 1) (some 2) (fun _ => [])).1 rfl,
   (listen_never_throws_after_lookup stWithWs1 "ws_1" (some 1) (some 2)
      (fun _ => [])).2.2 connWs1 rfl rfl⟩

/-- C8: on a registered id, `listen` returns exactly the drop-L0 slice of the
log trace as read at `stopTick`, the first poll tick at which a termination
condition holds (time budget elapsed or at least the message bound of new
entries), together with that tick's elapsed time; and the handler state — the
registry with every connection's log — is returned unchanged. -/
theorem listen_returns_delta_slice (st : HandlerState) (id : String)
    (duration maxMessages : Option Nat) (trace : Nat → List Message) (conn : WSConnection)
    (h : mapLookup st.connections id = some conn) :
    (listen st id duration maxMessages trace).1 =
      Except.ok
        ((trace (stopTick trace conn.messages.length (effDuration duration)
            (effMaxMessages maxMessages))).drop conn.messages.length,
         100 * stopTick trace conn.messages.length (effDuration duration)
            (effMaxMessages maxMessages)) ∧
    stopCond trace conn.messages.length (effDuration duration) (effMaxMessages maxMessages)
      (stopTick trace conn.messages.length (effDuration duration)
        (effMaxMessages maxMessages)) ∧
    (∀ j, j < stopTick trace conn.messages.length (effDuration duration)
        (effMaxMessages maxMessages) →
      ¬ stopCond trace conn.messages.length (effDuration duration)
          (effMaxMessages maxMessages) j) ∧
    (listen st id duration maxMessages trace).2 = st := by
  refine ⟨?_, ?_, ?_, ?_⟩
  · unfold listen
    rw [h]
    dsimp only
    rw [checkMessages_eq_at_stopTick]
  · unfold stopTick
    exact Nat.find_spec _
  · unfold stopTick
    exact fun j hj => Nat.find_min _ hj
  · unfold listen
    rw [h]

/-- C8 witness: the theorem applied to a concrete state, id and burst trace. -/
theorem listen_returns_delta_slice_witness :
    (listen stWithWs1 "ws_1" (some 1) (some 2) burstTrace).1 =
      Except.ok
        ((burstTrace (stopTick burstTrace connWs1.messages.length (effDuration (some 1))
            (effMaxMessages (some 2)))).drop connWs1.messages.length,
         100 * stopTick burstTrace connWs1.messages.length (effDuration (some 1))
            (effMaxMessages (some 2))) ∧
    stopCond burstTrace connWs1.messages.length (effDuration (some 1))
      (effMaxMessages (some 2))
      (stopTick burstTrace connWs1.messages.length (effDuration (some 1))
        (effMaxMessages (some 2))) ∧
    (∀ j, j < stopTick burstTrace connWs1.messages.length (effDuration (some 1))
        (effMaxMessages (some 2)) →
      ¬ stopCond burstTrace connWs1.messages.length (effDuration (some 1))
          (effMaxMessages (some 2)) j) ∧
    (listen stWithWs1 "ws_1" (some 1) (some 2) burstTrace).2 = stWithWs1 :=
  listen_returns_delta_slice stWithWs1 "ws_1" (some 1) (some 2) burstTrace connWs1 rfl

/-- C9: `send` never mutates the handler state: whatever the outcome — ok,
not-found, not-connected or a transport send failure — the registry is
returned exactly as it was, so no entry is appended to the target connection's
inbound log by the send itself and every other connection's registry entry and
log are untouched; log entries arise only from the transport callbacks. -/
theorem send_preserves_state (st : HandlerState) (id payload : String)
    (isBinary sockThrows : Bool) (now : Nat) :
    (send st id payload isBinary sockThrows now).2 = st := by
  unfold send
  split
  · rfl
  · split
    · rfl
    · split <;> rfl

/-- C10: a single `listen` call can return strictly more messages than its
message bound: with a bound of 2 and five messages arriving within one polling
interval, the count condition stops the loop but the whole accumulated delta
slice of five messages is returned untruncated. -/
theorem listen_can_exceed_max :
    (listen stWithWs1 "ws_1" (some 5) (some 2) burstTrace).1 =
      Except.ok (fiveMessages, 100) ∧
    effMaxMessages (some 2) < fiveMessages.length := by
  constructor
  · show Except.ok (checkMessages burstTrace 0 5000 2 0) =
      Except.ok ((fiveMessages, 100) : List Message × Nat)
    rw [checkMessages_go burstTrace 0 5000 2 0 (by decide),
        checkMessages_stop burstTrace 0 5000 2 1 (by decide)]
    rfl
  · decide

end WS
